import Mathlib

/-!
# Verification of the AI News Summarizer frontend/backend contract

Shallow embedding of the React/TypeScript frontend (`frontend/src/lib/api.ts`,
`frontend/src/contexts/AuthContext.tsx`, the `AppContent` handlers and the
`AnalysisDashboard` chart preparation) together with spec-modelled pieces of
the Django backend (ingestion and the LLM analysis contract) that are not part
of the frontend sources.

Conventions: TypeScript numbers carrying integral values become `Int`/`Nat`;
sentiment fractions become `ℚ`; `undefined`/nullable values become `Option`;
promise rejection becomes `Except`; the DOM cookie string, where its exact
character-level parsing matters, becomes `List Char`.
-/

set_option autoImplicit false

namespace NewsSummarizer

/-! ## Backend data model (spec-modelled where the Python source is absent) -/

/-- Modelled from the spec: the backend `news` app (`backend/news/models.py`,
`backend/news/services.py`) is not under `src/`.  An `Article` row per the
spec's data model: "title, description, body, canonical URL (unique — dedup
key), image URL, author, source reference, category reference, publication
timestamp". -/
structure StoredArticle where
  title : String
  description : String
  body : String
  url : String
  urlToImage : Option String
  author : Option String
  source : String
  category : Option String
  publishedAt : String
  deriving DecidableEq, Repr

/-- Whether an article with canonical URL `u` already exists in storage. -/
def urlExists (store : List StoredArticle) (u : String) : Bool :=
  store.any (fun a => a.url = u)

/-- Modelled from the spec: `fetch_and_store_articles` in
`backend/news/services.py` is not under `src/`.  Per the spec's ingestion
contract, for each returned item "insert it unless an article with the same
canonical URL already exists (idempotent by URL)". -/
def ingestItem (store : List StoredArticle) (item : StoredArticle) : List StoredArticle :=
  if urlExists store item.url then store else store ++ [item]

/-- Modelled from the spec: ingestion processes the provider's items in order,
inserting each one through `ingestItem`. -/
def ingest (store : List StoredArticle) (items : List StoredArticle) : List StoredArticle :=
  items.foldl ingestItem store

/-- "Returns a count of newly created rows." -/
def createdCount (store : List StoredArticle) (items : List StoredArticle) : Nat :=
  (ingest store items).length - store.length

theorem urlExists_iff_mem_map (store : List StoredArticle) (u : String) :
    urlExists store u = true ↔ u ∈ store.map StoredArticle.url := by
  simp [urlExists, List.any_eq_true, List.mem_map]

theorem urlExists_ingestItem_mono (store : List StoredArticle) (it : StoredArticle)
    (u : String) (h : urlExists store u = true) :
    urlExists (ingestItem store it) u = true := by
  unfold ingestItem
  split
  · exact h
  · unfold urlExists at h ⊢
    simp [List.any_append, h]

theorem urlExists_ingestItem_self (store : List StoredArticle) (it : StoredArticle) :
    urlExists (ingestItem store it) it.url = true := by
  unfold ingestItem
  split
  · assumption
  · simp [urlExists, List.any_append]

theorem urlExists_ingest_mono (items : List StoredArticle) (store : List StoredArticle)
    (u : String) (h : urlExists store u = true) :
    urlExists (ingest store items) u = true := by
  induction items generalizing store with
  | nil => exact h
  | cons it rest ih =>
      exact ih (ingestItem store it) (urlExists_ingestItem_mono store it u h)

theorem urlExists_ingest_of_mem (items : List StoredArticle) (store : List StoredArticle)
    (it : StoredArticle) (h : it ∈ items) :
    urlExists (ingest store items) it.url = true := by
  induction items generalizing store with
  | nil => cases h
  | cons hd rest ih =>
      rcases List.mem_cons.mp h with rfl | hmem
      · exact urlExists_ingest_mono rest (ingestItem store it) it.url
          (urlExists_ingestItem_self store it)
      · exact ih (ingestItem store hd) hmem

theorem ingest_of_all_present (items : List StoredArticle) (store : List StoredArticle)
    (h : ∀ it ∈ items, urlExists store it.url = true) :
    ingest store items = store := by
  induction items with
  | nil => rfl
  | cons hd rest ih =>
      have hhd : ingestItem store hd = store := by
        unfold ingestItem
        simp [h hd (List.mem_cons_self hd rest)]
      show ingest (ingestItem store hd) rest = store
      rw [hhd]
      exact ih (fun it hit => h it (List.mem_cons_of_mem hd hit))

theorem ingestItem_nodup (store : List StoredArticle) (it : StoredArticle)
    (h : (store.map StoredArticle.url).Nodup) :
    ((ingestItem store it).map StoredArticle.url).Nodup := by
  unfold ingestItem
  split
  · exact h
  · rename_i hfalse
    have hnotmem : it.url ∉ store.map StoredArticle.url := by
      intro hmem
      exact hfalse ((urlExists_iff_mem_map store it.url).mpr hmem)
    simpa [List.nodup_append] using And.intro h hnotmem

theorem ingest_nodup (items : List StoredArticle) (store : List StoredArticle)
    (h : (store.map StoredArticle.url).Nodup) :
    ((ingest store items).map StoredArticle.url).Nodup := by
  induction items generalizing store with
  | nil => exact h
  | cons hd rest ih => exact ih (ingestItem store hd) (ingestItem_nodup store hd h)

/-- C1: Ingestion is idempotent by canonical URL: an item whose canonical URL
already exists in storage inserts zero new rows, running ingestion twice on
the same input leaves storage equal to running it once, and ingestion
preserves uniqueness of article URLs in storage. -/
theorem ingest_idempotent_by_url :
    (∀ (store : List StoredArticle) (item : StoredArticle),
        urlExists store item.url = true →
        ingestItem store item = store ∧ createdCount store [item] = 0) ∧
    (∀ (store : List StoredArticle) (items : List StoredArticle),
        ingest (ingest store items) items = ingest store items) ∧
    (∀ (store : List StoredArticle) (items : List StoredArticle),
        (store.map StoredArticle.url).Nodup →
        ((ingest store items).map StoredArticle.url).Nodup) := by
  refine ⟨?_, ?_, ?_⟩
  · intro store item h
    have heq : ingestItem store item = store := by
      unfold ingestItem; simp [h]
    refine ⟨heq, ?_⟩
    show (ingest store [item]).length - store.length = 0
    show (ingest (ingestItem store item) []).length - store.length = 0
    rw [heq]
    simp [ingest]
  · intro store items
    exact ingest_of_all_present items (ingest store items)
      (fun it hit => urlExists_ingest_of_mem items store it hit)
  · intro store items h
    exact ingest_nodup items store h

/-- A concrete article used to witness C1. -/
def articleW : StoredArticle :=
  { title := "First", description := "d", body := "b", url := "https://example.com/a"
    urlToImage := none, author := none, source := "CNN", category := some "politics"
    publishedAt := "2024-01-01T00:00:00Z" }

/-- The same canonical URL as `articleW`, different metadata. -/
def articleW2 : StoredArticle :=
  { title := "Second", description := "d2", body := "b2", url := "https://example.com/a"
    urlToImage := none, author := some "x", source := "BBC", category := none
    publishedAt := "2024-01-02T00:00:00Z" }

theorem ingest_idempotent_by_url_witness :
    (urlExists [articleW] articleW2.url = true ∧
      ingestItem [articleW] articleW2 = [articleW] ∧
      createdCount [articleW] [articleW2] = 0) ∧
    ingest (ingest [] [articleW, articleW2]) [articleW, articleW2] =
      ingest [] [articleW, articleW2] ∧
    (([articleW].map StoredArticle.url).Nodup →
      ((ingest [articleW] [articleW2]).map StoredArticle.url).Nodup) := by
  have h : urlExists [articleW] articleW2.url = true := by decide
  refine ⟨⟨h, (ingest_idempotent_by_url.1 [articleW] articleW2 h).1,
    (ingest_idempotent_by_url.1 [articleW] articleW2 h).2⟩,
    ingest_idempotent_by_url.2.1 [] [articleW, articleW2],
    fun hnd => ingest_idempotent_by_url.2.2 [articleW] [articleW2] hnd⟩

/-! ## Frontend data types (`frontend/src/lib/api.ts`) -/

/-- `interface UserProfile` from `api.ts`. -/
structure UserProfile where
  bio : String
  avatar : Option String
  location : String
  website : Option String
  email_notifications : Bool
  total_analyses_created : Int
  last_analysis_date : Option String
  deriving DecidableEq, Repr

/-- `interface User` from `api.ts`. -/
structure User where
  id : Int
  username : String
  first_name : String
  last_name : String
  email : String
  profile : UserProfile
  deriving DecidableEq, Repr

/-- `interface NewsArticle` from `api.ts`. -/
structure NewsArticle where
  id : Int
  title : String
  description : String
  content : Option String
  url : String
  url_to_image : Option String
  author : Option String
  source_name : String
  category_name : Option String
  category_slug : Option String
  published_at : String
  has_analysis : Bool
  deriving DecidableEq, Repr

/-- `interface NewsCategory` from `api.ts`. -/
structure NewsCategory where
  id : Int
  name : String
  slug : String
  description : String
  article_count : Int
  deriving DecidableEq, Repr

/-- `interface SentimentAnalysis` from `api.ts`; fractional scores are `ℚ`. -/
structure SentimentAnalysis where
  id : Int
  article : NewsArticle
  political_bias : String
  bias_confidence_score : ℚ
  bias_reasoning : String
  positive_sentiment : ℚ
  negative_sentiment : ℚ
  neutral_sentiment : ℚ
  overall_sentiment_score : ℚ
  primary_topics : List String
  topic_distribution : List (String × ℚ)
  key_themes : List String
  emotional_tone : String
  controversy_level : ℚ
  bias_score_normalized : ℚ
  created_at : String
  deriving DecidableEq, Repr

/-! ## C2: the sentiment-triple invariant and its rendering -/

/-- Modelled from the spec: the backend `analysis` app
(`backend/analysis/models.py`, `backend/analysis/services.py`) is not under
`src/`.  The LLM contract per the spec: "three sentiment percentages
constrained to sum to 1.0"; "Invariant: sentiment triple sums to 1.0 (enforced
by the upstream LLM contract, not recomputed locally)". -/
def llmContractOk (a : SentimentAnalysis) : Prop :=
  a.positive_sentiment + a.negative_sentiment + a.neutral_sentiment = 1

instance (a : SentimentAnalysis) : Decidable (llmContractOk a) := by
  unfold llmContractOk; infer_instance

/-- Modelled from the spec: the Analysis component "parse[s] and persist[s]
the result" only when the upstream response satisfies the fixed JSON schema; a
schema-violating response "is treated as a hard failure for that call only",
so no row violating the contract is stored. -/
def ingestAnalysis (store : List SentimentAnalysis) (a : SentimentAnalysis) :
    List SentimentAnalysis :=
  if llmContractOk a then store ++ [a] else store

/-- JavaScript `Math.round`: round half towards positive infinity. -/
def jsRound (x : ℚ) : ℤ := ⌊x + 1/2⌋

/-- `sentimentData` from `AnalysisDashboard.tsx`: name, `Math.round(x * 100)`
value, and chart colour for each sentiment component. -/
def sentimentData (a : SentimentAnalysis) : List (String × ℤ × String) :=
  [("Positive", jsRound (a.positive_sentiment * 100), "#10b981"),
   ("Negative", jsRound (a.negative_sentiment * 100), "#ef4444"),
   ("Neutral", jsRound (a.neutral_sentiment * 100), "#6b7280")]

/-- Total of the percentage values rendered in the sentiment breakdown. -/
def renderedSentimentSum (a : SentimentAnalysis) : ℤ :=
  ((sentimentData a).map (fun e => e.2.1)).sum

/-- C2: every stored Analysis row satisfies the sum-to-one invariant (storage
built through `ingestAnalysis` preserves it), and for every such analysis the
frontend's rendered sentiment breakdown sums to 100 up to rounding. -/
theorem analysis_sentiment_sum :
    (∀ (store : List SentimentAnalysis) (a : SentimentAnalysis),
        (∀ x ∈ store, llmContractOk x) →
        ∀ x ∈ ingestAnalysis store a, llmContractOk x) ∧
    (∀ a : SentimentAnalysis, llmContractOk a →
        a.positive_sentiment + a.negative_sentiment + a.neutral_sentiment = 1 ∧
        99 ≤ renderedSentimentSum a ∧ renderedSentimentSum a ≤ 101) := by
  constructor
  · intro store a hstore x hx
    unfold ingestAnalysis at hx
    split at hx
    · rcases List.mem_append.mp hx with hmem | hmem
      · exact hstore x hmem
      · rcases List.mem_singleton.mp hmem with rfl
        assumption
    · exact hstore x hx
  · intro a h
    have hbounds : 99 ≤ renderedSentimentSum a ∧ renderedSentimentSum a ≤ 101 := by
      have hsum : renderedSentimentSum a =
          jsRound (a.positive_sentiment * 100) + jsRound (a.negative_sentiment * 100) +
            jsRound (a.neutral_sentiment * 100) := by
        simp [renderedSentimentSum, sentimentData]
        ring
      have h1a : (jsRound (a.positive_sentiment * 100) : ℚ) ≤
          a.positive_sentiment * 100 + 1/2 := Int.floor_le _
      have h1b : a.positive_sentiment * 100 + 1/2 <
          (jsRound (a.positive_sentiment * 100) : ℚ) + 1 := Int.lt_floor_add_one _
      have h2a : (jsRound (a.negative_sentiment * 100) : ℚ) ≤
          a.negative_sentiment * 100 + 1/2 := Int.floor_le _
      have h2b : a.negative_sentiment * 100 + 1/2 <
          (jsRound (a.negative_sentiment * 100) : ℚ) + 1 := Int.lt_floor_add_one _
      have h3a : (jsRound (a.neutral_sentiment * 100) : ℚ) ≤
          a.neutral_sentiment * 100 + 1/2 := Int.floor_le _
      have h3b : a.neutral_sentiment * 100 + 1/2 <
          (jsRound (a.neutral_sentiment * 100) : ℚ) + 1 := Int.lt_floor_add_one _
      have hcast : ((renderedSentimentSum a : ℤ) : ℚ) =
          (jsRound (a.positive_sentiment * 100) : ℚ) +
            (jsRound (a.negative_sentiment * 100) : ℚ) +
            (jsRound (a.neutral_sentiment * 100) : ℚ) := by
        rw [hsum]; push_cast; ring
      have htotal : a.positive_sentiment * 100 + a.negative_sentiment * 100 +
          a.neutral_sentiment * 100 = 100 := by
        have := h; unfold llmContractOk at this; linarith
      constructor
      · have hlow : (98 : ℚ) < ((renderedSentimentSum a : ℤ) : ℚ) := by
          rw [hcast]; linarith
        have h98 : (98 : ℤ) < renderedSentimentSum a := by exact_mod_cast hlow
        omega
      · have hhigh : ((renderedSentimentSum a : ℤ) : ℚ) < 102 := by
          rw [hcast]; linarith
        have h102 : renderedSentimentSum a < (102 : ℤ) := by exact_mod_cast hhigh
        omega
    exact ⟨h, hbounds.1, hbounds.2⟩

/-- A concrete article used in the C2 witness. -/
def articleNW : NewsArticle :=
  { id := 1, title := "t", description := "d", content := none
    url := "https://example.com/n", url_to_image := none, author := none
    source_name := "CNN", category_name := none, category_slug := none
    published_at := "2024-01-01", has_analysis := false }

/-- A concrete analysis with sentiment triple 0.3 / 0.2 / 0.5. -/
def analysisW : SentimentAnalysis :=
  { id := 1, article := articleNW, political_bias := "center"
    bias_confidence_score := 4/5, bias_reasoning := "r"
    positive_sentiment := 3/10, negative_sentiment := 1/5, neutral_sentiment := 1/2
    overall_sentiment_score := 1/10, primary_topics := [], topic_distribution := []
    key_themes := [], emotional_tone := "neutral", controversy_level := 1/5
    bias_score_normalized := 0, created_at := "2024-01-01" }

theorem analysis_sentiment_sum_witness :
    llmContractOk analysisW ∧
    (analysisW.positive_sentiment + analysisW.negative_sentiment +
        analysisW.neutral_sentiment = 1 ∧
      99 ≤ renderedSentimentSum analysisW ∧ renderedSentimentSum analysisW ≤ 101) ∧
    (∀ x ∈ ingestAnalysis [] analysisW, llmContractOk x) := by
  have h : llmContractOk analysisW := by
    unfold llmContractOk analysisW; norm_num
  exact ⟨h, analysis_sentiment_sum.2 analysisW h,
    analysis_sentiment_sum.1 [] analysisW (by simp)⟩

/-! ## `AppContent` component state and handlers (`App.tsx`) -/

/-- The `useState` hooks of `AppContent`. -/
structure AppState where
  user : Option User
  articles : List NewsArticle
  categories : List NewsCategory
  selectedAnalysis : Option SentimentAnalysis
  isLoading : Bool
  isFetchingNews : Bool
  isAnalyzing : Bool
  analyzingArticleId : Option Int
  error : Option String
  selectedCategory : Option String
  isAuthModalOpen : Bool
  deriving DecidableEq, Repr

/-- `a.id === article.id ? { ...a, has_analysis: true } : a` — the update
applied to each displayed article after a successful analysis. -/
def markAnalyzed (targetId : Int) (a : NewsArticle) : NewsArticle :=
  if a.id = targetId then { a with has_analysis := true } else a

/-- `loadInitialData` from `App.tsx`: sets the loading flag, clears the error,
and on success replaces the article list and categories; on failure sets the
load-failure message.  `result` is the outcome of the two parallel GETs. -/
def loadInitialData (result : Except String (List NewsArticle × List NewsCategory))
    (s : AppState) : AppState :=
  let s1 := { s with isLoading := true, error := none }
  match result with
  | .ok (arts, cats) =>
      { s1 with articles := arts, categories := cats, isLoading := false }
  | .error _ =>
      { s1 with error := some "Failed to load news data. Please try again.",
                isLoading := false }

/-- `handleAnalyzeArticle` from `App.tsx`.  `result` is the outcome of the one
`analysisAPI.analyzeArticle` call; the returned `Nat` counts how many
analyze-article requests the handler issued. -/
def handleAnalyzeArticle (result : Except String SentimentAnalysis)
    (article : NewsArticle) (s : AppState) : AppState × Nat :=
  match s.user with
  | none => ({ s with isAuthModalOpen := true }, 0)
  | some _ =>
      let s1 := { s with isAnalyzing := true, analyzingArticleId := some article.id,
                         error := none }
      match result with
      | .ok analysis =>
          ({ s1 with selectedAnalysis := some analysis,
                     articles := s1.articles.map (markAnalyzed article.id),
                     isAnalyzing := false, analyzingArticleId := none }, 1)
      | .error _ =>
          ({ s1 with error := some "Failed to analyze article. Please try again.",
                     isAnalyzing := false, analyzingArticleId := none }, 1)

/-- `handleFetchNews` from `App.tsx`.  `fetchResult` is the outcome of the
`newsAPI.fetchLatest` call (on success, the response's `created_count`);
`reloadResult` is what `loadInitialData` would receive if invoked.  The
returned `Bool` records whether `loadInitialData` was invoked. -/
def handleFetchNews (fetchResult : Except String Nat)
    (reloadResult : Except String (List NewsArticle × List NewsCategory))
    (s : AppState) : AppState × Bool :=
  match s.user with
  | none => ({ s with isAuthModalOpen := true }, false)
  | some _ =>
      let s1 := { s with isFetchingNews := true, error := none }
      match fetchResult with
      | .ok created_count =>
          if created_count > 0 then
            let s2 := loadInitialData reloadResult s1
            ({ s2 with isFetchingNews := false }, true)
          else
            ({ s1 with
                error := some
                  "No new articles were fetched. The database might already be up to date.",
                isFetchingNews := false }, false)
      | .error _ =>
          ({ s1 with
              error := some
                "Failed to fetch news. Please ensure you have a valid NEWS_API_KEY configured.",
              isFetchingNews := false }, false)

/-- C3: on any rejected analyze-article request the handler reports exactly
the single message "Failed to analyze article. Please try again.", issues
exactly one request (no retry), leaves the selected analysis and the article
list (hence every `has_analysis` flag) unchanged, and resets the analyzing
flags to their idle values. -/
theorem handleAnalyzeArticle_failure (s : AppState) (article : NewsArticle)
    (e : String) (u : User) (h : s.user = some u) :
    (handleAnalyzeArticle (.error e) article s).1.error =
        some "Failed to analyze article. Please try again." ∧
    (handleAnalyzeArticle (.error e) article s).2 = 1 ∧
    (handleAnalyzeArticle (.error e) article s).1.selectedAnalysis =
        s.selectedAnalysis ∧
    (handleAnalyzeArticle (.error e) article s).1.articles = s.articles ∧
    (handleAnalyzeArticle (.error e) article s).1.isAnalyzing = false ∧
    (handleAnalyzeArticle (.error e) article s).1.analyzingArticleId = none := by
  simp [handleAnalyzeArticle, h]

/-- C4: on a successful analyze-article response the handler selects the
returned analysis, rewrites the article list by setting `has_analysis` for
exactly the articles whose id equals the requested article's id, preserves
every other field and every non-matching article, keeps the list length, and
resets the analyzing flags. -/
theorem handleAnalyzeArticle_success (s : AppState) (article : NewsArticle)
    (analysis : SentimentAnalysis) (u : User) (h : s.user = some u) :
    (handleAnalyzeArticle (.ok analysis) article s).1.selectedAnalysis =
        some analysis ∧
    (handleAnalyzeArticle (.ok analysis) article s).1.articles =
        s.articles.map (markAnalyzed article.id) ∧
    (∀ a : NewsArticle, a.id ≠ article.id → markAnalyzed article.id a = a) ∧
    (∀ a : NewsArticle, a.id = article.id →
        markAnalyzed article.id a = { a with has_analysis := true }) ∧
    (∀ a : NewsArticle,
        (markAnalyzed article.id a).id = a.id ∧
        (markAnalyzed article.id a).title = a.title ∧
        (markAnalyzed article.id a).description = a.description ∧
        (markAnalyzed article.id a).content = a.content ∧
        (markAnalyzed article.id a).url = a.url ∧
        (markAnalyzed article.id a).url_to_image = a.url_to_image ∧
        (markAnalyzed article.id a).author = a.author ∧
        (markAnalyzed article.id a).source_name = a.source_name ∧
        (markAnalyzed article.id a).category_name = a.category_name ∧
        (markAnalyzed article.id a).category_slug = a.category_slug ∧
        (markAnalyzed article.id a).published_at = a.published_at) ∧
    (handleAnalyzeArticle (.ok analysis) article s).1.articles.length =
        s.articles.length ∧
    (handleAnalyzeArticle (.ok analysis) article s).1.isAnalyzing = false ∧
    (handleAnalyzeArticle (.ok analysis) article s).1.analyzingArticleId = none ∧
    (handleAnalyzeArticle (.ok analysis) article s).1.error = none := by
  refine ⟨by simp [handleAnalyzeArticle, h], by simp [handleAnalyzeArticle, h],
    ?_, ?_, ?_, by simp [handleAnalyzeArticle, h], by simp [handleAnalyzeArticle, h],
    by simp [handleAnalyzeArticle, h], by simp [handleAnalyzeArticle, h]⟩
  · intro a ha
    simp [markAnalyzed, ha]
  · intro a ha
    simp [markAnalyzed, ha]
  · intro a
    unfold markAnalyzed
    split <;> simp

/-- C5: after a successful fetch-latest call, the handler reloads the article
list exactly when `created_count` is positive; when `created_count` is zero it
does not reload and sets the message "No new articles were fetched. The
database might already be up to date." -/
theorem handleFetchNews_created_count (s : AppState) (u : User) (c : Nat)
    (reloadResult : Except String (List NewsArticle × List NewsCategory))
    (h : s.user = some u) :
    ((handleFetchNews (.ok c) reloadResult s).2 = true ↔ 0 < c) ∧
    (c = 0 →
      (handleFetchNews (.ok c) reloadResult s).1.error =
          some "No new articles were fetched. The database might already be up to date." ∧
      (handleFetchNews (.ok c) reloadResult s).1.articles = s.articles) ∧
    (∀ (arts : List NewsArticle) (cats : List NewsCategory),
      0 < c → reloadResult = .ok (arts, cats) →
        (handleFetchNews (.ok c) reloadResult s).1.articles = arts ∧
        (handleFetchNews (.ok c) reloadResult s).1.error = none) := by
  refine ⟨?_, ?_, ?_⟩
  · constructor
    · intro hr
      by_contra hc
      have hc0 : c = 0 := by omega
      subst hc0
      simp [handleFetchNews, h] at hr
    · intro hc
      simp [handleFetchNews, h, hc]
  · intro hc
    subst hc
    refine ⟨by simp [handleFetchNews, h], by simp [handleFetchNews, h]⟩
  · intro arts cats hc hr
    subst hr
    refine ⟨?_, ?_⟩ <;> simp [handleFetchNews, h, hc, loadInitialData]

/-- A concrete user profile for the handler witnesses. -/
def profileW : UserProfile :=
  { bio := "", avatar := none, location := "", website := none
    email_notifications := true, total_analyses_created := 0
    last_analysis_date := none }

/-- A concrete logged-in user for the handler witnesses. -/
def userW : User :=
  { id := 7, username := "demo_user", first_name := "Demo", last_name := "User"
    email := "demo@example.com", profile := profileW }

/-- A concrete app state with a logged-in user and one article. -/
def stateW : AppState :=
  { user := some userW, articles := [articleNW], categories := []
    selectedAnalysis := none, isLoading := false, isFetchingNews := false
    isAnalyzing := false, analyzingArticleId := none, error := none
    selectedCategory := none, isAuthModalOpen := false }

theorem handleAnalyzeArticle_failure_witness :
    (handleAnalyzeArticle (.error "boom") articleNW stateW).1.error =
        some "Failed to analyze article. Please try again." ∧
    (handleAnalyzeArticle (.error "boom") articleNW stateW).2 = 1 ∧
    (handleAnalyzeArticle (.error "boom") articleNW stateW).1.selectedAnalysis =
        stateW.selectedAnalysis ∧
    (handleAnalyzeArticle (.error "boom") articleNW stateW).1.articles =
        stateW.articles ∧
    (handleAnalyzeArticle (.error "boom") articleNW stateW).1.isAnalyzing = false ∧
    (handleAnalyzeArticle (.error "boom") articleNW stateW).1.analyzingArticleId =
        none :=
  handleAnalyzeArticle_failure stateW articleNW "boom" userW rfl

theorem handleAnalyzeArticle_success_witness :
    (handleAnalyzeArticle (.ok analysisW) articleNW stateW).1.selectedAnalysis =
        some analysisW ∧
    (handleAnalyzeArticle (.ok analysisW) articleNW stateW).1.articles =
        stateW.articles.map (markAnalyzed articleNW.id) ∧
    (∀ a : NewsArticle, a.id ≠ articleNW.id → markAnalyzed articleNW.id a = a) ∧
    (∀ a : NewsArticle, a.id = articleNW.id →
        markAnalyzed articleNW.id a = { a with has_analysis := true }) ∧
    (∀ a : NewsArticle,
        (markAnalyzed articleNW.id a).id = a.id ∧
        (markAnalyzed articleNW.id a).title = a.title ∧
        (markAnalyzed articleNW.id a).description = a.description ∧
        (markAnalyzed articleNW.id a).content = a.content ∧
        (markAnalyzed articleNW.id a).url = a.url ∧
        (markAnalyzed articleNW.id a).url_to_image = a.url_to_image ∧
        (markAnalyzed articleNW.id a).author = a.author ∧
        (markAnalyzed articleNW.id a).source_name = a.source_name ∧
        (markAnalyzed articleNW.id a).category_name = a.category_name ∧
        (markAnalyzed articleNW.id a).category_slug = a.category_slug ∧
        (markAnalyzed articleNW.id a).published_at = a.published_at) ∧
    (handleAnalyzeArticle (.ok analysisW) articleNW stateW).1.articles.length =
        stateW.articles.length ∧
    (handleAnalyzeArticle (.ok analysisW) articleNW stateW).1.isAnalyzing = false ∧
    (handleAnalyzeArticle (.ok analysisW) articleNW stateW).1.analyzingArticleId =
        none ∧
    (handleAnalyzeArticle (.ok analysisW) articleNW stateW).1.error = none :=
  handleAnalyzeArticle_success stateW articleNW analysisW userW rfl

theorem handleFetchNews_created_count_witness :
    (((handleFetchNews (.ok 3) (.ok ([articleNW], [])) stateW).2 = true ↔ 0 < 3) ∧
      (3 = 0 →
        (handleFetchNews (.ok 3) (.ok ([articleNW], [])) stateW).1.error =
            some "No new articles were fetched. The database might already be up to date." ∧
        (handleFetchNews (.ok 3) (.ok ([articleNW], [])) stateW).1.articles =
            stateW.articles) ∧
      (∀ (arts : List NewsArticle) (cats : List NewsCategory),
        0 < 3 →
          (Except.ok ([articleNW], []) :
              Except String (List NewsArticle × List NewsCategory)) =
            Except.ok (arts, cats) →
          (handleFetchNews (.ok 3) (.ok ([articleNW], [])) stateW).1.articles = arts ∧
          (handleFetchNews (.ok 3) (.ok ([articleNW], [])) stateW).1.error = none)) ∧
    ((handleFetchNews (.ok 0) (.ok ([articleNW], [])) stateW).2 = true ↔ 0 < 0) ∧
    (0 = 0 →
      (handleFetchNews (.ok 0) (.ok ([articleNW], [])) stateW).1.error =
          some "No new articles were fetched. The database might already be up to date." ∧
      (handleFetchNews (.ok 0) (.ok ([articleNW], [])) stateW).1.articles =
          stateW.articles) :=
  ⟨handleFetchNews_created_count stateW userW 3 (.ok ([articleNW], [])) rfl,
    (handleFetchNews_created_count stateW userW 0 (.ok ([articleNW], [])) rfl).1,
    (handleFetchNews_created_count stateW userW 0 (.ok ([articleNW], [])) rfl).2.1⟩

/-! ## The axios client and the API method surface (`api.ts`) -/

/-- The options passed to `axios.create` for `apiClient`. -/
structure AxiosDefaults where
  baseURL : String
  timeout : Nat
  withCredentials : Bool
  deriving DecidableEq, Repr

/-- `axios.create({ baseURL, timeout: 120000, withCredentials: true, ... })`. -/
def apiClientDefaults : AxiosDefaults :=
  { baseURL := "http://localhost:8000/api", timeout := 120000, withCredentials := true }

/-- A JSON-ish value appearing in a request body or query params; `undefinedV`
models a JavaScript object key whose value is `undefined`. -/
inductive JVal where
  | s (v : String)
  | n (v : Int)
  | undefinedV
  deriving DecidableEq, Repr

/-- `v === undefined ? JVal.undefinedV : JVal.s v` for an optional string field. -/
def optStr : Option String → JVal
  | some v => .s v
  | none => .undefinedV

/-- `v === undefined ? JVal.undefinedV : JVal.n v` for an optional number field. -/
def optInt : Option Int → JVal
  | some v => .n v
  | none => .undefinedV

/-- JavaScript `x || d` on an optional number: `undefined` and `0` are falsy
and yield the default. -/
def jsOrInt (x : Option Int) (d : Int) : Int :=
  match x with
  | none => d
  | some v => if v = 0 then d else v

/-- One HTTP request issued through `apiClient`.  No method in `api.ts` passes
a per-request `timeout`, so `timeoutOverride` defaults to `none`. -/
structure Request where
  method : String
  url : String
  body : List (String × JVal) := []
  params : List (String × JVal) := []
  timeoutOverride : Option Nat := none
  deriving DecidableEq, Repr

/-- The timeout a request is actually configured with: the per-request
override if present, else the `apiClient` default. -/
def effectiveTimeout (r : Request) : Nat :=
  r.timeoutOverride.getD apiClientDefaults.timeout

/-- First body value stored under key `k`. -/
def lookupBody (r : Request) (k : String) : Option JVal :=
  (r.body.find? (fun e => e.1 = k)).map (fun e => e.2)

/-- Argument of `authAPI.register`. -/
structure RegisterData where
  username : String
  email : String
  password : String
  password_confirm : String
  first_name : Option String := none
  last_name : Option String := none
  deriving DecidableEq, Repr

/-- Argument of `newsAPI.getArticles`. -/
structure GetArticlesParams where
  category : Option String := none
  search : Option String := none
  page : Option Int := none
  page_size : Option Int := none
  deriving DecidableEq, Repr

/-- Argument of `analysisAPI.getAnalyses`. -/
structure GetAnalysesParams where
  bias : Option String := none
  category : Option String := none
  page : Option Int := none
  page_size : Option Int := none
  deriving DecidableEq, Repr

/-- Argument of `profileAPI.updateProfile` (`Partial<UserProfile>`). -/
structure ProfileUpdate where
  bio : Option String := none
  avatar : Option String := none
  location : Option String := none
  website : Option String := none
  email_notifications : Option Bool := none
  deriving DecidableEq, Repr

/-- Argument of `profileAPI.changePassword`. -/
structure ChangePasswordData where
  old_password : String
  new_password : String
  new_password_confirm : String
  deriving DecidableEq, Repr

namespace authAPI

def login (username password : String) : Request :=
  { method := "POST", url := "/auth/login/"
    body := [("username", .s username), ("password", .s password)] }

def register (d : RegisterData) : Request :=
  { method := "POST", url := "/auth/register/"
    body := [("username", .s d.username), ("email", .s d.email),
      ("password", .s d.password), ("password_confirm", .s d.password_confirm),
      ("first_name", optStr d.first_name), ("last_name", optStr d.last_name)] }

def logout : Request := { method := "POST", url := "/auth/logout/" }

def getCurrentUser : Request := { method := "GET", url := "/auth/user/" }

def getDashboard : Request := { method := "GET", url := "/auth/dashboard/" }

end authAPI

namespace newsAPI

def getArticles (p : Option GetArticlesParams) : Request :=
  { method := "GET", url := "/news/articles/"
    params := match p with
      | none => []
      | some q => [("category", optStr q.category), ("search", optStr q.search),
          ("page", optInt q.page), ("page_size", optInt q.page_size)] }

def getArticle (id : Int) : Request :=
  { method := "GET", url := s!"/news/articles/{id}/" }

def getCategories : Request := { method := "GET", url := "/news/categories/" }

def getCategoriesWithCounts : Request :=
  { method := "GET", url := "/news/articles/categories_with_counts/" }

def getTrending : Request := { method := "GET", url := "/news/articles/trending/" }

def markAsRead (articleId : Int) : Request :=
  { method := "POST", url := s!"/news/articles/{articleId}/mark_as_read/" }

def fetchLatest (category : Option String) (max_articles : Option Int) : Request :=
  { method := "POST", url := "/news/articles/fetch_latest/"
    body := [("category", optStr category),
      ("max_articles", .n (jsOrInt max_articles 50))] }

end newsAPI

namespace analysisAPI

def getAnalyses (p : Option GetAnalysesParams) : Request :=
  { method := "GET", url := "/analysis/analyses/"
    params := match p with
      | none => []
      | some q => [("bias", optStr q.bias), ("category", optStr q.category),
          ("page", optInt q.page), ("page_size", optInt q.page_size)] }

def getAnalysis (id : Int) : Request :=
  { method := "GET", url := s!"/analysis/analyses/{id}/" }

def analyzeArticle (articleId : Int) : Request :=
  { method := "POST", url := "/analysis/analyses/analyze_article/"
    body := [("article_id", .n articleId)] }

def getStats : Request := { method := "GET", url := "/analysis/analyses/stats/" }

def getTrendingTopics (days : Option Int) : Request :=
  { method := "GET", url := "/analysis/analyses/trending_topics/"
    params := [("days", .n (jsOrInt days 7))] }

def getRecent : Request := { method := "GET", url := "/analysis/analyses/recent/" }

def getControversial : Request :=
  { method := "GET", url := "/analysis/analyses/controversial/" }

end analysisAPI

namespace profileAPI

def getProfile : Request := { method := "GET", url := "/auth/profile/" }

def updateProfile (d : ProfileUpdate) : Request :=
  { method := "PATCH", url := "/auth/profile/"
    body := [("bio", optStr d.bio), ("avatar", optStr d.avatar),
      ("location", optStr d.location), ("website", optStr d.website)] }

def getStats : Request := { method := "GET", url := "/auth/profile/stats/" }

def changePassword (d : ChangePasswordData) : Request :=
  { method := "POST", url := "/auth/profile/change_password/"
    body := [("old_password", .s d.old_password), ("new_password", .s d.new_password),
      ("new_password_confirm", .s d.new_password_confirm)] }

end profileAPI

/-- C6: every request issued through the frontend API client — each method of
`authAPI`, `newsAPI`, `analysisAPI`, and `profileAPI` — is configured with the
single fixed client-side timeout of 120000 milliseconds; no request overrides
or omits it. -/
theorem apiClient_timeout_uniform :
    apiClientDefaults.timeout = 120000 ∧
    (∀ u p, effectiveTimeout (authAPI.login u p) = 120000) ∧
    (∀ d, effectiveTimeout (authAPI.register d) = 120000) ∧
    effectiveTimeout authAPI.logout = 120000 ∧
    effectiveTimeout authAPI.getCurrentUser = 120000 ∧
    effectiveTimeout authAPI.getDashboard = 120000 ∧
    (∀ p, effectiveTimeout (newsAPI.getArticles p) = 120000) ∧
    (∀ id, effectiveTimeout (newsAPI.getArticle id) = 120000) ∧
    effectiveTimeout newsAPI.getCategories = 120000 ∧
    effectiveTimeout newsAPI.getCategoriesWithCounts = 120000 ∧
    effectiveTimeout newsAPI.getTrending = 120000 ∧
    (∀ id, effectiveTimeout (newsAPI.markAsRead id) = 120000) ∧
    (∀ c m, effectiveTimeout (newsAPI.fetchLatest c m) = 120000) ∧
    (∀ p, effectiveTimeout (analysisAPI.getAnalyses p) = 120000) ∧
    (∀ id, effectiveTimeout (analysisAPI.getAnalysis id) = 120000) ∧
    (∀ id, effectiveTimeout (analysisAPI.analyzeArticle id) = 120000) ∧
    effectiveTimeout analysisAPI.getStats = 120000 ∧
    (∀ d, effectiveTimeout (analysisAPI.getTrendingTopics d) = 120000) ∧
    effectiveTimeout analysisAPI.getRecent = 120000 ∧
    effectiveTimeout analysisAPI.getControversial = 120000 ∧
    effectiveTimeout profileAPI.getProfile = 120000 ∧
    (∀ d, effectiveTimeout (profileAPI.updateProfile d) = 120000) ∧
    effectiveTimeout profileAPI.getStats = 120000 ∧
    (∀ d, effectiveTimeout (profileAPI.changePassword d) = 120000) :=
  ⟨rfl, fun _ _ => rfl, fun _ => rfl, rfl, rfl, rfl, fun _ => rfl, fun _ => rfl,
    rfl, rfl, rfl, fun _ => rfl, fun _ _ => rfl, fun _ => rfl, fun _ => rfl,
    fun _ => rfl, rfl, fun _ => rfl, rfl, rfl, rfl, fun _ => rfl, rfl,
    fun _ => rfl⟩

/-- C10: `newsAPI.fetchLatest` sends `max_articles = 50` when the argument is
omitted, and — because `||` treats every falsy value alike — also when the
caller explicitly passes `0`. -/
theorem fetchLatest_max_articles_default :
    (∀ c : Option String,
      lookupBody (newsAPI.fetchLatest c none) "max_articles" = some (.n 50)) ∧
    (∀ c : Option String,
      lookupBody (newsAPI.fetchLatest c (some 0)) "max_articles" = some (.n 50)) := by
  constructor <;> intro c <;>
    simp [lookupBody, newsAPI.fetchLatest, jsOrInt, List.find?]

/-! ## Auth context (`AuthContext.tsx`) -/

/-- The auth-relevant state: the context's `user` and the browser's
`localStorage` entry `'user'` (a serialized user, when present). -/
structure AuthState where
  user : Option User
  localStorageUser : Option String
  deriving DecidableEq, Repr

/-- `isAuthenticated: !!user` from the context value. -/
def isAuthenticated (s : AuthState) : Bool := s.user.isSome

namespace AuthContext

/-- `logout` from `AuthContext.tsx`: awaits `authAPI.logout()` inside
`try`/`catch` (the `catch` only logs), then in `finally` clears the user and
removes the `'user'` localStorage entry.  `serverResult` is the outcome of the
server call; the `Except` result models whether `logout()` itself rejects. -/
def logout (serverResult : Except String Unit) (s : AuthState) :
    Except String AuthState :=
  let afterTryCatch : Except String AuthState :=
    match serverResult with
    | .ok _ => .ok s
    | .error _ => .ok s
  match afterTryCatch with
  | .ok s1 => .ok { s1 with user := none, localStorageUser := none }
  | .error e => .error e

end AuthContext

/-- C9: `logout` never rejects — for either outcome of the server call it
resolves, and in the resulting state the user is `null`, `isAuthenticated` is
`false`, and the `'user'` localStorage entry is removed. -/
theorem logout_never_rejects :
    ∀ (serverResult : Except String Unit) (s : AuthState),
      AuthContext.logout serverResult s =
        .ok { user := none, localStorageUser := none } ∧
      isAuthenticated { user := none, localStorageUser := none } = false := by
  intro r s
  cases r <;> exact ⟨rfl, rfl⟩

/-! ## Response interceptor and routes (`api.ts`, `App.tsx`) -/

/-- Browser state touched by the response interceptor. -/
structure BrowserState where
  localStorageUser : Option String
  locationHref : String
  deriving DecidableEq, Repr

/-- The rejection branch of `apiClient.interceptors.response`: on a 401 it
removes the `'user'` localStorage entry and sets `window.location.href` to
`'/login'`, then re-rejects with the original error.  The returned pair is the
browser state as the caller observes the rejection. -/
def onResponseRejected (status : Option Nat) (e : String) (b : BrowserState) :
    BrowserState × Except String Unit :=
  (if status = some 401 then
      { localStorageUser := none, locationHref := "/login" }
    else b,
   .error e)

/-- The `<Route>` paths declared under `<Routes>` in `App.tsx`. -/
def appRoutes : List String := ["/"]

/-- C8: on any 401 response the interceptor removes the stored `'user'` entry
and navigates to `'/login'` before the caller sees the rejection (the state
update and the re-rejection are delivered together), yet the router declares
only the `'/'` route and no `'/login'` route exists. -/
theorem unauthorized_interceptor :
    ∀ (e : String) (b : BrowserState),
      (onResponseRejected (some 401) e b).1.localStorageUser = none ∧
      (onResponseRejected (some 401) e b).1.locationHref = "/login" ∧
      (onResponseRejected (some 401) e b).2 = .error e ∧
      appRoutes = ["/"] ∧
      "/login" ∉ appRoutes := by
  intro e b
  refine ⟨by simp [onResponseRejected], by simp [onResponseRejected], rfl, rfl, ?_⟩
  simp [appRoutes]

/-! ## Request interceptor: CSRF cookie parsing (`api.ts`)

The interceptor computes
`document.cookie.split('; ').find(row => row.startsWith('csrftoken='))?.split('=')[1]`
and sets the `X-CSRFToken` header when the result is truthy.  The cookie
string is embedded at character level. -/

/-- JavaScript `s.startsWith(p)` over character lists (`beginsWith p s`). -/
def beginsWith : List Char → List Char → Bool
  | [], _ => true
  | _ :: _, [] => false
  | p :: ps, c :: cs => decide (p = c) && beginsWith ps cs

/-- JavaScript `s.split(sep)` for the two-character separator `sep = c1c2`
(here `'; '`): repeatedly cut at the leftmost occurrence. -/
def splitOn2 (c1 c2 : Char) : List Char → List (List Char)
  | [] => [[]]
  | [x] => [[x]]
  | x :: y :: rest =>
    if x = c1 ∧ y = c2 then [] :: splitOn2 c1 c2 rest
    else
      match splitOn2 c1 c2 (y :: rest) with
      | [] => [[x]]
      | t :: ts => (x :: t) :: ts

/-- JavaScript `s.split(c)` for a one-character separator (here `'='`). -/
def splitChar (c : Char) : List Char → List (List Char)
  | [] => [[]]
  | x :: xs =>
    if x = c then [] :: splitChar c xs
    else
      match splitChar c xs with
      | [] => [[x]]
      | t :: ts => (x :: t) :: ts

/-- `document.cookie.split('; ').find(row => row.startsWith('csrftoken='))?.split('=')[1]`. -/
def csrfTokenOf (cookie : List Char) : Option (List Char) :=
  match (splitOn2 ';' ' ' cookie).find?
      (fun row => beginsWith "csrftoken=".toList row) with
  | none => none
  | some row => (splitChar '=' row).get? 1

/-- The `X-CSRFToken` header value the interceptor attaches: set only when the
extracted token is defined and truthy (a non-empty string). -/
def csrfHeader (cookie : List Char) : Option (List Char) :=
  match csrfTokenOf cookie with
  | none => none
  | some t => if t = [] then none else some t

theorem splitChar_shape (c : Char) (s : List Char) :
    ∃ ts, splitChar c s = s.takeWhile (fun x => x ≠ c) :: ts := by
  induction s with
  | nil => exact ⟨[], rfl⟩
  | cons x xs ih =>
    by_cases hx : x = c
    · subst hx
      exact ⟨splitChar x xs, by simp [splitChar, List.takeWhile_cons]⟩
    · obtain ⟨ts, hts⟩ := ih
      refine ⟨ts, ?_⟩
      simp only [splitChar, if_neg hx, hts]
      simp [List.takeWhile_cons, hx]

theorem splitChar_append (c : Char) (u v : List Char) (hu : c ∉ u) :
    splitChar c (u ++ c :: v) = u :: splitChar c v := by
  induction u with
  | nil => simp [splitChar]
  | cons x xs ih =>
    have hx : ¬x = c := fun h => hu (h ▸ List.mem_cons_self x xs)
    have hxs : c ∉ xs := fun h => hu (List.mem_cons_of_mem x h)
    simp only [List.cons_append, splitChar, if_neg hx, List.append_eq, ih hxs]

/-- C7 as stated is false: with `document.cookie = "csrftoken=a=b"` a
`csrftoken` cookie is present with value `a=b`, yet the interceptor attaches
the header value `a`, not the cookie's value. -/
theorem csrf_header_counterexample :
    "csrftoken=a=b".toList = "csrftoken=".toList ++ "a=b".toList ∧
    (splitOn2 ';' ' ' "csrftoken=a=b".toList).find?
        (fun row => beginsWith "csrftoken=".toList row) =
      some "csrftoken=a=b".toList ∧
    csrfHeader "csrftoken=a=b".toList = some ['a'] ∧
    csrfHeader "csrftoken=a=b".toList ≠ some "a=b".toList := by
  decide

/-- C7 (amended): every request carries `withCredentials`; when no cookie row
begins with `csrftoken=` the header is not set; when such a row is found, with
value `v`, the header carries the portion of `v` before its first `'='` —
equal to the full value for ordinary values containing no `'='` — and is not
set at all when that portion is empty. -/
theorem csrf_header_amended (cookie : List Char) :
    apiClientDefaults.withCredentials = true ∧
    ((splitOn2 ';' ' ' cookie).find?
        (fun row => beginsWith "csrftoken=".toList row) = none →
      csrfHeader cookie = none) ∧
    (∀ v : List Char,
      (splitOn2 ';' ' ' cookie).find?
          (fun row => beginsWith "csrftoken=".toList row) =
        some ("csrftoken=".toList ++ v) →
      csrfHeader cookie =
        if v.takeWhile (fun x => x ≠ '=') = [] then none
        else some (v.takeWhile (fun x => x ≠ '='))) := by
  refine ⟨rfl, ?_, ?_⟩
  · intro hnone
    unfold csrfHeader csrfTokenOf
    rw [hnone]
  · intro v hfind
    have hdecomp : "csrftoken=".toList ++ v = "csrftoken".toList ++ ('=' :: v) := by
      have h0 : "csrftoken=".toList = "csrftoken".toList ++ ['='] := by decide
      rw [h0, List.append_assoc]
      rfl
    have hmem : '=' ∉ "csrftoken".toList := by decide
    have hsplit : splitChar '=' ("csrftoken=".toList ++ v) =
        "csrftoken".toList :: splitChar '=' v := by
      rw [hdecomp]
      exact splitChar_append '=' _ v hmem
    obtain ⟨ts, hts⟩ := splitChar_shape '=' v
    have htoken : csrfTokenOf cookie = some (v.takeWhile (fun x => x ≠ '=')) := by
      unfold csrfTokenOf
      rw [hfind]
      show (splitChar '=' ("csrftoken=".toList ++ v)).get? 1 = _
      rw [hsplit, hts]
      rfl
    unfold csrfHeader
    rw [htoken]

theorem csrf_header_amended_witness :
    (splitOn2 ';' ' ' "sessionid=1; csrftoken=tok".toList).find?
        (fun row => beginsWith "csrftoken=".toList row) =
      some ("csrftoken=".toList ++ "tok".toList) ∧
    csrfHeader "sessionid=1; csrftoken=tok".toList =
      (if "tok".toList.takeWhile (fun x => x ≠ '=') = [] then none
        else some ("tok".toList.takeWhile (fun x => x ≠ '='))) := by
  refine ⟨by decide, ?_⟩
  exact (csrf_header_amended "sessionid=1; csrftoken=tok".toList).2.2
    "tok".toList (by decide)

end NewsSummarizer
